import Mathlib

/-
Verification of the react-usedrafty draft-persistence hook (src/src/index.ts,
with the variant draft in src/unnamed/part_003). The hook is shallowly
embedded as pure state-transition functions over an explicit session state:
browser storage is an association list of string keys to string values,
JSON.stringify and JSON.parse are modelled on an inductive Json type covering
the fragment the hook exchanges (null, booleans, integers, strings, arrays,
objects; no floats, no escape sequences, no whitespace), and each React
effect or returned primitive becomes one function on the state.
-/

set_option autoImplicit false

namespace Drafty

/-- JSON values, as serialized form snapshots. Numbers are modelled as
integers; the hook never manipulates numeric payloads itself. -/
inductive Json where
  | null : Json
  | bool (b : Bool) : Json
  | num (n : Int) : Json
  | str (s : String) : Json
  | arr (xs : List Json) : Json
  | obj (fields : List (String × Json)) : Json

mutual

/-- JSON.stringify on the modelled fragment: no spaces, object keys in
insertion order, strings quoted verbatim. -/
def Json.stringify : Json → String
  | Json.null => "null"
  | Json.bool true => "true"
  | Json.bool false => "false"
  | Json.num n => toString n
  | Json.str s => "\"" ++ s ++ "\""
  | Json.arr xs => "[" ++ Json.stringifyElems xs ++ "]"
  | Json.obj fs => "\x7b" ++ Json.stringifyFields fs ++ "\x7d"

/-- Comma-separated serialization of array elements. -/
def Json.stringifyElems : List Json → String
  | [] => ""
  | [x] => Json.stringify x
  | x :: y :: xs => Json.stringify x ++ "," ++ Json.stringifyElems (y :: xs)

/-- Comma-separated serialization of object fields. -/
def Json.stringifyFields : List (String × Json) → String
  | [] => ""
  | [(k, v)] => "\"" ++ k ++ "\":" ++ Json.stringify v
  | (k, v) :: f :: fs =>
      "\"" ++ k ++ "\":" ++ Json.stringify v ++ "," ++ Json.stringifyFields (f :: fs)

end

/-- Split a leading run of decimal digits from the remaining characters. -/
def takeDigits : List Char → (List Char × List Char)
  | [] => ([], [])
  | c :: cs =>
      if c.isDigit then
        let p := takeDigits cs
        (c :: p.1, p.2)
      else ([], c :: cs)

/-- Decimal interpretation of a digit list. -/
def digitsToNat (ds : List Char) : Nat :=
  ds.foldl (fun a c => a * 10 + (c.toNat - 48)) 0

/-- Parse an optionally negated decimal integer. -/
def parseIntLit : List Char → Option (Int × List Char)
  | '-' :: cs =>
      match takeDigits cs with
      | ([], _) => none
      | (ds, r) => some (-(digitsToNat ds : Int), r)
  | cs =>
      match takeDigits cs with
      | ([], _) => none
      | (ds, r) => some ((digitsToNat ds : Int), r)

/-- Read characters up to a closing quote (the modelled fragment has no
escape sequences). -/
def takeStringChars : List Char → Option (String × List Char)
  | [] => none
  | c :: cs =>
      if c = '\"' then some ("", cs)
      else
        match takeStringChars cs with
        | some (s, r) => some (String.mk (c :: s.data), r)
        | none => none

mutual

/-- Fuel-indexed parser for the modelled JSON fragment, inverse to
Json.stringify on its image; any other input is rejected, matching the
treatment of a corrupt stored value as absent. -/
def parseVal : Nat → List Char → Option (Json × List Char)
  | 0, _ => none
  | _ + 1, [] => none
  | fuel + 1, c :: cs =>
      if c = 'n' then
        match cs with
        | 'u' :: 'l' :: 'l' :: r => some (Json.null, r)
        | _ => none
      else if c = 't' then
        match cs with
        | 'r' :: 'u' :: 'e' :: r => some (Json.bool true, r)
        | _ => none
      else if c = 'f' then
        match cs with
        | 'a' :: 'l' :: 's' :: 'e' :: r => some (Json.bool false, r)
        | _ => none
      else if c = '\"' then
        match takeStringChars cs with
        | some (s, r) => some (Json.str s, r)
        | none => none
      else if c = '[' then
        match cs with
        | ']' :: r => some (Json.arr [], r)
        | _ =>
            match parseElems fuel cs with
            | some (xs, r) => some (Json.arr xs, r)
            | none => none
      else if c = '\x7b' then
        match cs with
        | '\x7d' :: r => some (Json.obj [], r)
        | _ =>
            match parseFields fuel cs with
            | some (fs, r) => some (Json.obj fs, r)
            | none => none
      else
        match parseIntLit (c :: cs) with
        | some (n, r) => some (Json.num n, r)
        | none => none

/-- Parse one or more comma-separated array elements up to the closing
bracket. -/
def parseElems : Nat → List Char → Option (List Json × List Char)
  | 0, _ => none
  | fuel + 1, cs =>
      match parseVal fuel cs with
      | none => none
      | some (x, r) =>
          match r with
          | ',' :: r2 =>
              match parseElems fuel r2 with
              | some (xs, r3) => some (x :: xs, r3)
              | none => none
          | ']' :: r2 => some ([x], r2)
          | _ => none

/-- Parse one or more comma-separated object fields up to the closing
brace. -/
def parseFields : Nat → List Char → Option (List (String × Json) × List Char)
  | 0, _ => none
  | fuel + 1, cs =>
      match cs with
      | '\"' :: cs1 =>
          match takeStringChars cs1 with
          | some (k, r) =>
              match r with
              | ':' :: r2 =>
                  match parseVal fuel r2 with
                  | some (v, r3) =>
                      match r3 with
                      | ',' :: r4 =>
                          match parseFields fuel r4 with
                          | some (fs, r5) => some ((k, v) :: fs, r5)
                          | none => none
                      | '\x7d' :: r4 => some ([(k, v)], r4)
                      | _ => none
                  | none => none
              | _ => none
          | none => none
      | _ => none

end

/-- JSON.parse as used by the restore effect: succeeds only when the whole
input is one value of the modelled fragment. -/
def Json.parse (s : String) : Option Json :=
  match parseVal (s.length + 2) s.data with
  | some (v, []) => some v
  | _ => none

/-- The browser storage backend (localStorage or sessionStorage): string
keys to string values, first binding wins. -/
abbrev Storage := List (String × String)

/-- storage.getItem: the stored value under a key, if present. -/
def Storage.getItem : Storage → String → Option String
  | [], _ => none
  | (k0, v0) :: rest, k => if k0 = k then some v0 else Storage.getItem rest k

/-- storage.setItem: replace the binding in place, or append a new one. -/
def Storage.setItem : Storage → String → String → Storage
  | [], k, v => [(k, v)]
  | (k0, v0) :: rest, k, v =>
      if k0 = k then (k, v) :: rest else (k0, v0) :: Storage.setItem rest k v

/-- storage.removeItem: drop every binding of the key. -/
def Storage.removeItem : Storage → String → Storage
  | [], _ => []
  | (k0, v0) :: rest, k =>
      if k0 = k then Storage.removeItem rest k
      else (k0, v0) :: Storage.removeItem rest k

/-- One activation of the hook together with its collaborators: the shared
storage backend, the form container value of the current render, the two
useState cells (hasDraft, initialDraft), the single debounce timer cell
(holding the form value its callback closed over), the event subscriptions
installed by the warn and router effects, and observation logs for the
updateFormState sink, the onRestore callback and console.warn reports. -/
structure HookState where
  storage : Storage
  formValue : Json
  hasDraft : Bool
  initialDraft : Option Json
  pendingForm : Option Json
  timer : Option Json
  unloadSubscribed : Bool
  navSubscribed : Bool
  sinkCalls : List Json
  restoreCalls : List Json
  warnings : Nat

/-- The isDirty derivation (line 157): compare the JSON serializations of
initialDraft (a JS null serializes to the string null) and the live form
value with strict string inequality. -/
def stringifyNullable : Option Json → String
  | none => "null"
  | some v => Json.stringify v

/-- isDirty, recomputed on every render. -/
def isDirty (st : HookState) : Bool :=
  stringifyNullable st.initialDraft != Json.stringify st.formValue

/-- saveDraft (lines 131 to 139): serialize the current form value, write it
under the draft key and set hasDraft. A failing backend write is caught: the
failure is reported and neither storage nor hasDraft changes. -/
def saveDraft (setFails : Bool) (storageKey : String) (st : HookState) : HookState :=
  if setFails then { st with warnings := st.warnings + 1 }
  else
    { st with
        storage := Storage.setItem st.storage storageKey (Json.stringify st.formValue)
        hasDraft := true }

/-- clearDraft (lines 144 to 152): remove the stored draft, then reset
hasDraft and initialDraft. The three statements sit in one try block, so a
throwing removeItem skips both resets and only the catch clause (a warning)
runs. The function takes no options: a submitted marker passed by a caller
is ignored, and no auxiliary storage key is ever written. -/
def clearDraft (removeFails : Bool) (storageKey : String) (st : HookState) : HookState :=
  if removeFails then { st with warnings := st.warnings + 1 }
  else
    { st with
        storage := Storage.removeItem st.storage storageKey
        hasDraft := false
        initialDraft := none }

/-- The restore effect (lines 68 to 82), run once per storage key: read the
stored value; a missing or empty string leaves the state alone; a value that
fails to parse is reported and otherwise ignored; a parsed draft is passed
to the updateFormState sink (taking effect only at the next render), becomes
the initialDraft baseline, sets hasDraft and is handed to onRestore. No
other storage key is consulted: the effect reads nothing but storageKey. -/
def restoreEffect (storageKey : String) (st : HookState) : HookState :=
  match Storage.getItem st.storage storageKey with
  | none => st
  | some saved =>
      if saved = "" then st
      else
        match Json.parse saved with
        | none => { st with warnings := st.warnings + 1 }
        | some parsed =>
            { st with
                pendingForm := some parsed
                sinkCalls := st.sinkCalls ++ [parsed]
                initialDraft := some parsed
                hasDraft := true
                restoreCalls := st.restoreCalls ++ [parsed] }

/-- One run of the autosave effect (lines 87 to 98) in the render whose form
value is st.formValue: with a positive debounce it cancels any pending timer
and arms a new one whose callback closes over this render, and with debounce
zero it calls saveDraft synchronously in the same tick. -/
def autosaveEffect (debounce : Nat) (storageKey : String) (st : HookState) : HookState :=
  if 0 < debounce then { st with timer := some st.formValue }
  else saveDraft false storageKey st

/-- The options destructuring (line 54): an absent debounce option defaults
to zero, not to a positive floor. -/
def debounceOf (o : Option Nat) : Nat := o.getD 0

/-- The pending timer firing: its callback runs the saveDraft of the render
that armed it, serializing the form value that render closed over. -/
def fireTimer (storageKey : String) (st : HookState) : HookState :=
  match st.timer with
  | none => st
  | some v =>
      { st with
          storage := Storage.setItem st.storage storageKey (Json.stringify v)
          hasDraft := true
          timer := none }

/-- A React re-render: the value last handed to the updateFormState sink
becomes the live form value. -/
def rerender (st : HookState) : HookState :=
  match st.pendingForm with
  | none => st
  | some v => { st with formValue := v, pendingForm := none }

/-- The consumer setting the live form state to a new value. -/
def setForm (v : Json) (st : HookState) : HookState :=
  { st with formValue := v, pendingForm := none }

/-- The initial mount: React runs the effects of the first render top down,
so the restore effect runs first and the autosave effect second; the
updateFormState call made by the restore effect only takes effect at the
next render, so the autosave effect still observes the pre-restore form
value of the mount render. -/
def mountEffects (debounce : Nat) (storageKey : String) (st : HookState) : HookState :=
  autosaveEffect debounce storageKey (restoreEffect storageKey st)

/-- Unmount: React runs the cleanup functions the effects returned. The warn
effect removes its beforeunload listener (lines 123 to 125) and the router
effect of the part_003 variant runs its saved unsubscription (its lines 130
to 133); the autosave effect returns no cleanup, so a pending debounce timer
is left armed. -/
def unmount (st : HookState) : HookState :=
  { st with unloadSubscribed := false, navSubscribed := false }

/-- The possible values of a warnOnLeave predicate invocation: a boolean or
a string. -/
inductive WarnResult where
  | bool (b : Bool) : WarnResult
  | str (s : String) : WarnResult

/-- The warnOnLeave option: a boolean, a message string, or a predicate
returning a boolean or string. -/
inductive WarnPolicy where
  | ofBool (b : Bool) : WarnPolicy
  | ofStr (s : String) : WarnPolicy
  | ofFun (f : Unit → WarnResult) : WarnPolicy

/-- The conditional on line 108: a function policy is invoked, any other
policy evaluates to itself. -/
def evalPolicy : WarnPolicy → WarnResult
  | WarnPolicy.ofBool b => WarnResult.bool b
  | WarnPolicy.ofStr s => WarnResult.str s
  | WarnPolicy.ofFun f => f ()

/-- JS truthiness of a boolean-or-string: false and the empty string are
falsy. -/
def resultTruthy : WarnResult → Bool
  | WarnResult.bool b => b
  | WarnResult.str s => s != ""

/-- JS truthiness of the policy value itself, as tested by the early return
on line 104: every function is truthy. -/
def policyTruthy : WarnPolicy → Bool
  | WarnPolicy.ofBool b => b
  | WarnPolicy.ofStr s => s != ""
  | WarnPolicy.ofFun _ => true

/-- The fallback message of the TS source (line 115). -/
def defaultLeaveMessage : String :=
  "You have unsaved changes. Are you sure you want to leave?"

/-- beforeUnloadHandler of the TS source (lines 106 to 120): evaluate the
policy; a truthy result suppresses the default unload behavior and surfaces
a message (the result itself when it is a string, otherwise the fallback),
returned as some message; a falsy result does nothing and the unload
proceeds, returned as none. -/
def beforeUnloadHandler (w : WarnPolicy) : Option String :=
  let shouldWarn := evalPolicy w
  if resultTruthy shouldWarn then
    some
      (match shouldWarn with
        | WarnResult.str s => s
        | WarnResult.bool _ => defaultLeaveMessage)
  else none

/-- The unload outcome under the TS source: the warn effect installs the
handler only when the policy value itself is truthy (line 104), and the
installed handler decides as beforeUnloadHandler. none means the unload
proceeds unimpeded. -/
def unloadOutcome (w : WarnPolicy) : Option String :=
  if policyTruthy w then beforeUnloadHandler w else none

/-- The fallback message of the part_003 variant. -/
def defaultLeaveMessage3 : String := "You have unsaved changes."

/-- getMessage of the part_003 variant (its lines 62 to 65): a string result
is the message, any other result yields the fallback; truthiness of the
result is never consulted. -/
def getMessage3 (w : WarnPolicy) : String :=
  match evalPolicy w with
  | WarnResult.str s => s
  | WarnResult.bool _ => defaultLeaveMessage3

/-- beforeUnloadHandler of the part_003 variant (its lines 67 to 72): it
unconditionally suppresses the default unload behavior and surfaces the
computed message. -/
def beforeUnloadHandlerV3 (w : WarnPolicy) : Option String :=
  some (getMessage3 w)

/-- The unload outcome under the part_003 variant: the handler is installed
exactly when the policy value itself is truthy, and once installed it always
blocks. -/
def unloadOutcomeV3 (w : WarnPolicy) : Option String :=
  if policyTruthy w then beforeUnloadHandlerV3 w else none

/-- The autosave scheduler of one controller instance under explicit time:
the single timer cell holds the firing deadline and the form value the armed
callback closed over, and saves records the persisted writes in order. -/
structure SchedState where
  timer : Option (Nat × Json)
  saves : List Json

/-- A form value change at time t, in the positive-debounce branch of the
autosave effect: clearTimeout cancels any pending timer and setTimeout arms
the single replacement, closing over the new value. -/
def changeAt (debounce t : Nat) (v : Json) (s : SchedState) : SchedState :=
  { s with timer := some (t + debounce, v) }

/-- The event loop reaching time t: a pending timer whose deadline has
passed fires, persisting its value exactly once. -/
def elapse (t : Nat) (s : SchedState) : SchedState :=
  match s.timer with
  | some (d, v) => if d ≤ t then { timer := none, saves := s.saves ++ [v] } else s
  | none => s

/-- Run a sequence of timestamped value changes: before each change the
event loop has advanced to its time (firing a timer whose deadline already
passed), then the change re-arms the debounce. -/
def runChanges (debounce : Nat) : List (Nat × Json) → SchedState → SchedState
  | [], s => s
  | (t, v) :: rest, s => runChanges debounce rest (changeAt debounce t v (elapse t s))

/-- The changes arrive in order and each one strictly within the debounce
window opened at the previous time. -/
def rapidAfter (debounce : Nat) : Nat → List (Nat × Json) → Bool
  | _, [] => true
  | tprev, (t, _) :: rest =>
      decide (tprev ≤ t) && decide (t < tprev + debounce) && rapidAfter debounce t rest

/-- A fresh activation over the given storage and initial form value:
useState seeds hasDraft with false and initialDraft with null, no timer is
armed and no subscription installed yet. -/
def initState (storage : Storage) (v : Json) : HookState :=
  { storage := storage
    formValue := v
    hasDraft := false
    initialDraft := none
    pendingForm := none
    timer := none
    unloadSubscribed := false
    navSubscribed := false
    sinkCalls := []
    restoreCalls := []
    warnings := 0 }

/-- The empty contact form, the pre-restore value of the mount render. -/
def emptyForm : Json := Json.obj [("name", Json.str "")]

/-- A previously stored draft snapshot. -/
def anaDraft : Json := Json.obj [("name", Json.str "Ana")]

/-- Storage holding a draft under contact and the Submitted Flag spelled as
the spec lays it out: the literal string true under submitted:contact. -/
def submittedStorage : Storage :=
  [("contact", Json.stringify anaDraft), ("submitted:contact", "true")]

/-- An activation that has a stored draft and already restored it. -/
def stWithDraft : HookState :=
  { initState [("contact", Json.stringify anaDraft)] anaDraft with
      hasDraft := true
      initialDraft := some anaDraft }

/-- An activation in flight: timer armed, both guard subscriptions live. -/
def stMounted : HookState :=
  { initState [("contact", Json.stringify anaDraft)] emptyForm with
      timer := some anaDraft
      unloadSubscribed := true
      navSubscribed := true }

/-- A warn policy given as a predicate whose invocation result is falsy. -/
def falsyPredicate : WarnPolicy := WarnPolicy.ofFun (fun _ => WarnResult.bool false)

/-- The snapshot and serialized form used by the dirty-tracking witness. -/
def aObj : Json := Json.obj [("a", Json.num 1)]

/-- Serialized form of aObj. -/
def aObjText : String := Json.stringify aObj

/-- Activation state whose storage holds aObj serialized under k. -/
def c7state : HookState := initState [("k", aObjText)] (Json.obj [])

/-- Reading a key written by setItem gives the new value; every other key is
untouched. -/
theorem getItem_setItem (s : Storage) (key v k : String) :
    Storage.getItem (Storage.setItem s key v) k =
      if k = key then some v else Storage.getItem s k := by
  induction s with
  | nil =>
      by_cases h : k = key
      · simp [Storage.setItem, Storage.getItem, h]
      · have hkk : ¬ key = k := fun hh => h (Eq.symm hh)
        simp [Storage.setItem, Storage.getItem, h, hkk]
  | cons hd rest ih =>
      obtain ⟨k0, v0⟩ := hd
      by_cases h0 : k0 = key
      · by_cases hk : k = key
        · simp [Storage.setItem, Storage.getItem, h0, hk]
        · have hkk : ¬ key = k := fun hh => hk (Eq.symm hh)
          have h0k : ¬ k0 = k := fun hh => hkk (h0 ▸ hh)
          simp [Storage.setItem, Storage.getItem, h0, hk, hkk, h0k]
      · by_cases hk0 : k0 = k
        · have hk : ¬ k = key := fun hh => h0 (hk0.symm ▸ hh)
          simp [Storage.setItem, Storage.getItem, h0, hk0, hk]
        · simp [Storage.setItem, Storage.getItem, h0, hk0, ih]

/-- A key removed by removeItem is no longer readable. -/
theorem getItem_removeItem_self (s : Storage) (key : String) :
    Storage.getItem (Storage.removeItem s key) key = none := by
  induction s with
  | nil => rfl
  | cons hd rest ih =>
      obtain ⟨k0, v0⟩ := hd
      by_cases h0 : k0 = key
      · simp [Storage.removeItem, h0, ih]
      · simp [Storage.removeItem, Storage.getItem, h0, ih]

/-- C1: the claim fails on the code. With the Submitted Flag stored as the
string true under submitted:contact and a draft stored under contact, the
restore effect still restores: it hands the stored draft to the
updateFormState sink, seeds initialDraft with it and leaves hasDraft true.
The effect never reads the submitted key. -/
theorem c1_restore_ignores_submitted_flag :
    (restoreEffect "contact" (initState submittedStorage emptyForm)).hasDraft = true ∧
    (restoreEffect "contact" (initState submittedStorage emptyForm)).sinkCalls = [anaDraft] ∧
    (restoreEffect "contact" (initState submittedStorage emptyForm)).initialDraft
        = some anaDraft :=
  ⟨rfl, rfl, rfl⟩

/-- C2: the claim fails on the code. clearDraft accepts no options, so a
submitted marker passed by the caller is ignored: after the call the stored
draft is removed, hasDraft and initialDraft are reset, but no Submitted Flag
is written — the submitted key remains absent rather than holding true. -/
theorem c2_clearDraft_never_sets_submitted_flag :
    Storage.getItem (clearDraft false "contact" stWithDraft).storage "contact" = none ∧
    Storage.getItem (clearDraft false "contact" stWithDraft).storage "submitted:contact"
        = none ∧
    (clearDraft false "contact" stWithDraft).hasDraft = false ∧
    (clearDraft false "contact" stWithDraft).initialDraft = none :=
  ⟨rfl, rfl, rfl, rfl⟩

/-- C3: the claim fails on the code. At the default debounce of zero, the
autosave effect of the mount render saves synchronously; updateFormState
from the restore effect has not been rendered yet, so the save serializes
the pre-restore form value and overwrites the stored draft with it. -/
theorem c3_mount_overwrites_draft_with_prerestore_value :
    Storage.getItem
        (mountEffects (debounceOf none) "contact"
          (initState [("contact", Json.stringify anaDraft)] emptyForm)).storage "contact"
      = some (Json.stringify emptyForm) ∧
    Json.stringify emptyForm ≠ Json.stringify anaDraft :=
  ⟨rfl, by decide⟩

/-- C4: the claim fails on the code. An unset debounce option defaults to
zero, and the zero branch of the autosave effect calls saveDraft in the same
tick: the storage write happens synchronously and no timer is armed, so no
positive floor delay is substituted. -/
theorem c4_zero_debounce_saves_synchronously :
    debounceOf none = 0 ∧
    debounceOf (some 0) = 0 ∧
    (autosaveEffect (debounceOf none) "contact" stWithDraft).timer = none ∧
    Storage.getItem (autosaveEffect (debounceOf none) "contact" stWithDraft).storage
        "contact" = some (Json.stringify stWithDraft.formValue) :=
  ⟨rfl, rfl, rfl, rfl⟩

/-- Processing further rapid changes only re-arms the timer: starting from
an armed timer, a run of changes each strictly inside the window of its
predecessor fires nothing and leaves the timer armed for the last change. -/
theorem runChanges_rapid (d : Nat) (rest : List (Nat × Json)) :
    ∀ (tp : Nat) (vp : Json) (saves : List Json), rapidAfter d tp rest = true →
      runChanges d rest { timer := some (tp + d, vp), saves := saves } =
        { timer := some ((rest.getLastD (tp, vp)).1 + d, (rest.getLastD (tp, vp)).2)
          saves := saves } := by
  induction rest with
  | nil => intro tp vp saves _; rfl
  | cons hd tl ih =>
      intro tp vp saves hr
      obtain ⟨t, v⟩ := hd
      simp only [rapidAfter, Bool.and_eq_true, decide_eq_true_eq] at hr
      obtain ⟨⟨h1, h2⟩, h3⟩ := hr
      have hlt : ¬ tp + d ≤ t := by omega
      have helapse :
          elapse t { timer := some (tp + d, vp), saves := saves } =
            { timer := some (tp + d, vp), saves := saves } := by
        simp [elapse, hlt]
      simp only [runChanges, helapse, changeAt, List.getLastD_cons]
      exact ih t v saves h3

/-- C5: with a positive debounce, a burst of changes each arriving strictly
within the delay after the previous one yields exactly one persisted save,
whose snapshot is the last value of the burst; the timer cell is empty
afterwards, and arming always cancels and replaces whatever timer was
pending. -/
theorem c5_debounce_coalescing (d t1 T : Nat) (v1 : Json) (rest : List (Nat × Json))
    (_hd : 0 < d) (hr : rapidAfter d t1 rest = true)
    (hT : (rest.getLastD (t1, v1)).1 + d ≤ T) :
    (elapse T (runChanges d ((t1, v1) :: rest) { timer := none, saves := [] })).saves
        = [(rest.getLastD (t1, v1)).2] ∧
    (elapse T (runChanges d ((t1, v1) :: rest) { timer := none, saves := [] })).timer
        = none ∧
    ∀ (s : SchedState) (t : Nat) (v : Json), (changeAt d t v s).timer = some (t + d, v) := by
  have hrun :
      runChanges d ((t1, v1) :: rest) { timer := none, saves := [] } =
        { timer := some ((rest.getLastD (t1, v1)).1 + d, (rest.getLastD (t1, v1)).2)
          saves := [] } := by
    simp only [runChanges, elapse, changeAt]
    exact runChanges_rapid d rest t1 v1 [] hr
  have fired :
      elapse T
          { timer := some ((rest.getLastD (t1, v1)).1 + d, (rest.getLastD (t1, v1)).2)
            saves := [] } =
        { timer := none, saves := [(rest.getLastD (t1, v1)).2] } := by
    simp only [elapse]
    rw [if_pos hT]
    simp
  rw [hrun, fired]
  exact ⟨rfl, rfl, fun s t v => rfl⟩

/-- Concrete instance of the coalescing theorem: three edits 50 and 40
milliseconds apart under a 100 millisecond debounce produce one save holding
the third value. -/
theorem c5_debounce_coalescing_witness :
    (0 < 100 ∧
      rapidAfter 100 0 [(50, Json.str "b"), (90, Json.str "c")] = true ∧
      (([(50, Json.str "b"), (90, Json.str "c")].getLastD (0, Json.str "a")).1 + 100 ≤ 300)) ∧
    ((elapse 300 (runChanges 100
          ((0, Json.str "a") :: [(50, Json.str "b"), (90, Json.str "c")])
          { timer := none, saves := [] })).saves
        = [([(50, Json.str "b"), (90, Json.str "c")].getLastD (0, Json.str "a")).2] ∧
      (elapse 300 (runChanges 100
          ((0, Json.str "a") :: [(50, Json.str "b"), (90, Json.str "c")])
          { timer := none, saves := [] })).timer = none ∧
      ∀ (s : SchedState) (t : Nat) (v : Json),
        (changeAt 100 t v s).timer = some (t + 100, v)) :=
  ⟨⟨by decide, by decide, by decide⟩,
    c5_debounce_coalescing 100 0 300 (Json.str "a") [(50, Json.str "b"), (90, Json.str "c")]
      (by decide) (by decide) (by decide)⟩

/-- C6: the claim fails on the code. When removeItem throws, the catch block
runs before the state setters, so the session state keeps its previous
shape: hasDraft stays true and initialDraft keeps its baseline instead of
being reset. -/
theorem c6_counterexample_clear_failure_keeps_state :
    ¬ ((clearDraft true "contact" stWithDraft).hasDraft = false ∧
        (clearDraft true "contact" stWithDraft).initialDraft = none) := by
  intro h
  obtain ⟨h1, _⟩ := h
  rw [show (clearDraft true "contact" stWithDraft).hasDraft = true from rfl] at h1
  exact Bool.noConfusion h1

/-- C6 amended: a failing remove is reported non-fatally (the call returns,
one warning is logged) but leaves hasDraft, initialDraft and storage exactly
as they were; the cleared shape, including removal of the stored entry, is
reached only when the backend remove succeeds. -/
theorem c6_clear_failure_behavior (key : String) (st : HookState) :
    (clearDraft true key st).hasDraft = st.hasDraft ∧
    (clearDraft true key st).initialDraft = st.initialDraft ∧
    (clearDraft true key st).storage = st.storage ∧
    (clearDraft true key st).warnings = st.warnings + 1 ∧
    (clearDraft false key st).hasDraft = false ∧
    (clearDraft false key st).initialDraft = none ∧
    Storage.getItem (clearDraft false key st).storage key = none :=
  ⟨rfl, rfl, rfl, rfl, rfl, rfl, getItem_removeItem_self st.storage key⟩

/-- C7: after a successful restore the rendered form value and the
initialDraft baseline serialize identically, so isDirty is false, and
setting the live value to any snapshot with the same serialization — the
structural-equality criterion the comparison uses — keeps isDirty false. -/
theorem c7_dirty_structural_after_restore (key : String) (st : HookState)
    (s : String) (v w : Json)
    (hget : Storage.getItem st.storage key = some s) (hne : s ≠ "")
    (hparse : Json.parse s = some v)
    (hw : Json.stringify w = Json.stringify v) :
    isDirty (rerender (restoreEffect key st)) = false ∧
    isDirty (setForm w (rerender (restoreEffect key st))) = false := by
  have hre : restoreEffect key st =
      { st with
          pendingForm := some v
          sinkCalls := st.sinkCalls ++ [v]
          initialDraft := some v
          hasDraft := true
          restoreCalls := st.restoreCalls ++ [v] } := by
    unfold restoreEffect
    rw [hget]
    simp [hne, hparse]
  rw [hre]
  constructor
  · simp [rerender, isDirty, stringifyNullable]
  · simp [rerender, setForm, isDirty, stringifyNullable, hw]

/-- Concrete instance of the dirty-tracking theorem: restoring the serialized
snapshot of aObj leaves isDirty false, and re-setting the live value to a
snapshot with equal serialization keeps it false. -/
theorem c7_dirty_structural_witness :
    (Storage.getItem c7state.storage "k" = some aObjText ∧
      aObjText ≠ "" ∧
      Json.parse aObjText = some aObj ∧
      Json.stringify aObj = Json.stringify aObj) ∧
    (isDirty (rerender (restoreEffect "k" c7state)) = false ∧
      isDirty (setForm aObj (rerender (restoreEffect "k" c7state))) = false) :=
  ⟨⟨rfl, by decide, rfl, rfl⟩,
    c7_dirty_structural_after_restore "k" c7state aObjText aObj aObj rfl (by decide) rfl rfl⟩

/-- C8: the claim fails on the part_003 variant. A predicate policy whose
invocation result is falsy still suppresses the unload there: the handler is
installed because a function value is truthy, and it unconditionally calls
preventDefault and surfaces the fallback message instead of letting the
unload proceed. -/
theorem c8_counterexample_falsy_predicate_blocks :
    resultTruthy (evalPolicy falsyPredicate) = false ∧
    unloadOutcomeV3 falsyPredicate ≠ none ∧
    unloadOutcomeV3 falsyPredicate = some defaultLeaveMessage3 := by
  refine ⟨rfl, ?_, rfl⟩
  intro h
  rw [show unloadOutcomeV3 falsyPredicate = some defaultLeaveMessage3 from rfl] at h
  exact Option.noConfusion h

/-- C8 amended: under the TS source the unload outcome is exactly a function
of the evaluated policy result — a falsy result lets the unload proceed, a
truthy string surfaces that string and a truthy non-string surfaces the
fallback message. Under the part_003 variant this holds for boolean and
string policies, but every predicate policy suppresses the unload
unconditionally: the surfaced message is the result when it is a string,
even an empty one, and the fallback otherwise. -/
theorem c8_unload_policy_semantics (p : WarnPolicy) :
    unloadOutcome p =
      (match evalPolicy p with
        | WarnResult.bool b => if b then some defaultLeaveMessage else none
        | WarnResult.str s => if s = "" then none else some s) ∧
    unloadOutcomeV3 p =
      (match p with
        | WarnPolicy.ofBool b => if b then some defaultLeaveMessage3 else none
        | WarnPolicy.ofStr s => if s = "" then none else some s
        | WarnPolicy.ofFun f =>
            some
              (match f () with
                | WarnResult.str s => s
                | WarnResult.bool _ => defaultLeaveMessage3)) := by
  constructor
  · cases p with
    | ofBool b =>
        cases b <;>
          simp [unloadOutcome, policyTruthy, beforeUnloadHandler, evalPolicy, resultTruthy]
    | ofStr s =>
        by_cases hs : s = "" <;>
          simp [unloadOutcome, policyTruthy, beforeUnloadHandler, evalPolicy, resultTruthy, hs]
    | ofFun f =>
        cases hf : f () with
        | bool b =>
            cases b <;>
              simp [unloadOutcome, policyTruthy, beforeUnloadHandler, evalPolicy,
                resultTruthy, hf]
        | str s =>
            by_cases hs : s = "" <;>
              simp [unloadOutcome, policyTruthy, beforeUnloadHandler, evalPolicy,
                resultTruthy, hf, hs]
  · cases p with
    | ofBool b =>
        cases b <;>
          simp [unloadOutcomeV3, policyTruthy, beforeUnloadHandlerV3, getMessage3, evalPolicy]
    | ofStr s =>
        by_cases hs : s = "" <;>
          simp [unloadOutcomeV3, policyTruthy, beforeUnloadHandlerV3, getMessage3,
            evalPolicy, hs]
    | ofFun f =>
        cases hf : f () with
        | bool b =>
            simp [unloadOutcomeV3, policyTruthy, beforeUnloadHandlerV3, getMessage3,
              evalPolicy, hf]
        | str s =>
            simp [unloadOutcomeV3, policyTruthy, beforeUnloadHandlerV3, getMessage3,
              evalPolicy, hf]

/-- C9: the claim fails on the code. Unmount runs the cleanups the effects
returned, which remove the unload and navigation subscriptions, but the
autosave effect returned no cleanup: the armed debounce timer survives
unmount, and when it fires its save callback still writes to storage against
the torn-down controller. -/
theorem c9_counterexample_unmount_keeps_timer :
    ¬ ((unmount stMounted).timer = none ∧
        (unmount stMounted).unloadSubscribed = false ∧
        (unmount stMounted).navSubscribed = false) ∧
    Storage.getItem (fireTimer "contact" (unmount stMounted)).storage "contact"
        = some (Json.stringify anaDraft) := by
  constructor
  · intro h
    obtain ⟨h1, _⟩ := h
    rw [show (unmount stMounted).timer = some anaDraft from rfl] at h1
    exact Option.noConfusion h1
  · rfl

/-- C9 amended: unmount removes the unload listener and the navigation
subscription, and touches nothing else — in particular a pending debounce
timer stays armed, because the autosave effect returns no cleanup. -/
theorem c9_unmount_cleanup (st : HookState) :
    (unmount st).unloadSubscribed = false ∧
    (unmount st).navSubscribed = false ∧
    (unmount st).timer = st.timer ∧
    (unmount st).storage = st.storage :=
  ⟨rfl, rfl, rfl, rfl⟩

/-- C10: a successful saveDraft writes the serialized live value under the
draft key, leaves every other storage key unchanged, sets hasDraft and
changes nothing else: initialDraft, the live value and therefore the isDirty
comparison are untouched, so a form that differed from its baseline before a
manual save still differs after it. -/
theorem c10_saveDraft_frame (key : String) (st : HookState) (k : String) :
    (saveDraft false key st).hasDraft = true ∧
    (saveDraft false key st).initialDraft = st.initialDraft ∧
    (saveDraft false key st).formValue = st.formValue ∧
    (saveDraft false key st).timer = st.timer ∧
    (saveDraft false key st).warnings = st.warnings ∧
    isDirty (saveDraft false key st) = isDirty st ∧
    Storage.getItem (saveDraft false key st).storage k =
      (if k = key then some (Json.stringify st.formValue) else Storage.getItem st.storage k) :=
  ⟨rfl, rfl, rfl, rfl, rfl, rfl, getItem_setItem st.storage key (Json.stringify st.formValue) k⟩

end Drafty
